import Mathlib

/-
Verification of the Isooko bot API (isooko.py): a FastAPI proxy over an
upstream assistant service.  The development shallowly embeds the two
components the specification covers — the WebSocket connection registry
(ConnectionManager) with its streaming relay loop (websocket_endpoint),
and the non-streaming POST /chat handler (chat_with_assistant) — as pure
Lean functions over explicit state, and proves the specified properties
about them.
-/

set_option autoImplicit false

namespace Isooko

/-- A client transport handle (the FastAPI WebSocket object), identified
abstractly by a numeric id.  Two distinct connections have distinct ids. -/
structure WebSocket where
  wid : Nat
deriving DecidableEq, Repr

/-- Observable transport-level effects performed by the server on client
transports: accepting a handshake, writing a text message, or closing the
transport. -/
inductive Action where
  | accept (ws : WebSocket)
  | sendText (ws : WebSocket) (text : String)
  | close (ws : WebSocket)
deriving DecidableEq, Repr

/-- The texts written to client transports within a list of actions, in
order. -/
def sentTexts (acts : List Action) : List String :=
  acts.filterMap fun a =>
    match a with
    | .sendText _ t => some t
    | _ => none

/-- The registry `ConnectionManager.active_connections`: a Python dict
from client_id to WebSocket, embedded as an association list (first
occurrence of a key is its binding, as in dict lookup). -/
abbrev Registry := List (String × WebSocket)

/-- Dict lookup `active_connections[client_id]` / membership test
`client_id in active_connections`. -/
def lookup : Registry → String → Option WebSocket
  | [], _ => none
  | (c, w) :: rest, cid => if c = cid then some w else lookup rest cid

/-- Dict assignment `active_connections[client_id] = websocket`:
overwrites the binding for the key if present, else appends it. -/
def setEntry : Registry → String → WebSocket → Registry
  | [], cid, ws => [(cid, ws)]
  | (c, w) :: rest, cid, ws =>
      if c = cid then (cid, ws) :: rest else (c, w) :: setEntry rest cid ws

/-- Dict deletion `del active_connections[client_id]`: removes the
binding for the key. -/
def eraseEntry (r : Registry) (cid : String) : Registry :=
  r.filter fun p => p.1 ≠ cid

/-- ConnectionManager.connect: accepts the websocket handshake and stores
the transport under client_id (`self.active_connections[client_id] =
websocket`), silently overwriting any prior entry.  Returns the updated
registry and the transport actions performed. -/
def connect (r : Registry) (websocket : WebSocket) (client_id : String) :
    Registry × List Action :=
  (setEntry r client_id websocket, [Action.accept websocket])

/-- ConnectionManager.disconnect: `if client_id in active_connections:
del active_connections[client_id]`. -/
def disconnect (r : Registry) (client_id : String) : Registry :=
  if (lookup r client_id).isSome then eraseEntry r client_id else r

/-- ConnectionManager.send_message: `if client_id in active_connections:
await active_connections[client_id].send_text(message)`.  The method never
assigns to the dict, so the registry component of the result is the input
registry; the action list records the transport write, empty when the key
is absent. -/
def send_message (r : Registry) (message : String) (client_id : String) :
    Registry × List Action :=
  match lookup r client_id with
  | some ws => (r, [Action.sendText ws message])
  | none => (r, [])

/-- The `delta` object of a streamed chat-completion event
(`event.choices[0].delta`): its `content` field is either absent (None)
or a string. -/
structure Delta where
  content : Option String
deriving DecidableEq, Repr

/-- One event of the upstream stream.  `delta` is None or a Delta object;
Python truthiness of the delta object is presence, and truthiness of
`delta.content` is presence of a non-empty string. -/
structure StreamEvent where
  delta : Option Delta
deriving DecidableEq, Repr

/-- The text fragment an event carries, if any: the guard
`if delta and delta.content` passes exactly when the delta is present and
its content is a non-empty string. -/
def fragmentOf (e : StreamEvent) : Option String :=
  match e.delta with
  | none => none
  | some d =>
      match d.content with
      | none => none
      | some s => if s = "" then none else some s

/-- The fragments of a turn, in upstream production order. -/
def fragsOf (events : List StreamEvent) : List String :=
  events.filterMap fragmentOf

/-- Outcome of one upstream streaming call for one turn: either it
terminates normally after yielding the given events, or it raises an
exception with message `msg` after yielding the given events (possibly
none, when the create call itself raises). -/
inductive StreamResult where
  | ok (events : List StreamEvent)
  | err (events : List StreamEvent) (msg : String)
deriving DecidableEq, Repr

/-- The sentinel marking the end of a turn's fragment stream. -/
def END_OF_MESSAGE : String := "[[END_OF_MESSAGE]]"

/-- The fragment-forwarding loop `for event in stream: ... await
manager.send_message(delta.content, client_id)`, applied to the fragments
in production order. -/
def forwardAll (r : Registry) (client_id : String) : List String → List Action
  | [] => []
  | s :: ss => (send_message r s client_id).2 ++ forwardAll r client_id ss

/-- The per-turn body of websocket_endpoint: forward each event's
fragment (when the truthiness guard passes) via manager.send_message,
then on normal stream termination send the end-of-message sentinel; on an
exception, the inner handler catches it and sends a single
`Error: <message>` fragment instead (no sentinel).  The registry is read
but never mutated during a turn. -/
def processTurn (r : Registry) (client_id : String) (res : StreamResult) :
    List Action :=
  match res with
  | .ok events =>
      forwardAll r client_id (fragsOf events)
        ++ (send_message r END_OF_MESSAGE client_id).2
  | .err events msg =>
      forwardAll r client_id (fragsOf events)
        ++ (send_message r ("Error: " ++ msg) client_id).2

/-- The receive loop of websocket_endpoint: one iteration per inbound
text message, each paired with the stream outcome the upstream call
produces for it. -/
def runTurns (r : Registry) (client_id : String) :
    List StreamResult → List Action
  | [] => []
  | t :: ts => processTurn r client_id t ++ runTurns r client_id ts

/-- websocket_endpoint: `await manager.connect(websocket, client_id)`,
then the receive loop processes each inbound turn; when the client
disconnects (receive_text raises WebSocketDisconnect) the handler calls
`manager.disconnect(client_id)`.  The session is modelled as the list of
turns the client completes before disconnecting. -/
def websocket_endpoint (r : Registry) (websocket : WebSocket)
    (client_id : String) (turns : List StreamResult) :
    Registry × List Action :=
  let c := connect r websocket client_id
  let acts := c.2 ++ runTurns c.1 client_id turns
  (disconnect c.1 client_id, acts)

/-- An upstream assistant run, as returned by
`client.beta.threads.runs.create_and_poll`: a run id and a terminal
status string. -/
structure Run where
  id : String
  status : String
deriving DecidableEq, Repr

/-- The upstream assistant service as seen by one POST /chat invocation:
each OpenAI call either returns a value or raises an exception carrying a
message string.  `list_messages` returns the text values of the listed
messages (`messages.data[i].content[0].text.value`), newest first. -/
structure Upstream where
  create_thread : Except String String
  create_message : Except String Unit
  create_and_poll : Except String Run
  list_messages : Except String (List String)
  delete_thread : Except String Unit
deriving Repr

/-- The debug_info dict assembled by chat_with_assistant; keys absent
until assigned are `none`.  The request timestamp is kept abstract. -/
structure DebugInfo where
  assistant_id : Option String
  message_length : Nat
  thread_id : Option String
  run_id : Option String
  run_status : Option String
deriving DecidableEq, Repr

/-- The HTTP-visible outcome of a request handler: a success payload, or
an HTTPException with a status code and detail string. -/
inductive ChatOutcome where
  | ok (response : String) (debug_info : DebugInfo)
  | httpError (status_code : Nat) (detail : String)
deriving DecidableEq, Repr

/-- Python `str(e)` for a fastapi/starlette HTTPException:
`f"{self.status_code}: {self.detail}"`. -/
def httpExceptionStr (status_code : Nat) (detail : String) : String :=
  toString status_code ++ ": " ++ detail

/-- Python `str(IndexError)` raised by `messages.data[0]` on an empty
list. -/
def indexErrorStr : String := "list index out of range"

/-- chat_with_assistant: creates a thread, posts the user message, runs
the assistant and polls to a terminal status; on status "completed" it
reads the newest message text, deletes the thread and returns the
response with debug_info; otherwise it raises HTTPException(500,
"Assistant run failed: {status}").  The single `except Exception` wraps
every raise — including that inner HTTPException — into
HTTPException(500, "Chat error: {str(e)}").  The second component counts
the `client.beta.threads.delete` calls performed. -/
def chat_with_assistant (u : Upstream) (ASSISTANT_ID : Option String)
    (message : String) : ChatOutcome × Nat :=
  let debug0 : DebugInfo :=
    { assistant_id := ASSISTANT_ID
      message_length := message.length
      thread_id := none
      run_id := none
      run_status := none }
  match u.create_thread with
  | .error e => (.httpError 500 ("Chat error: " ++ e), 0)
  | .ok thread_id =>
    let debug1 := { debug0 with thread_id := some thread_id }
    match u.create_message with
    | .error e => (.httpError 500 ("Chat error: " ++ e), 0)
    | .ok _ =>
      match u.create_and_poll with
      | .error e => (.httpError 500 ("Chat error: " ++ e), 0)
      | .ok run =>
        let debug2 :=
          { debug1 with run_id := some run.id, run_status := some run.status }
        if run.status = "completed" then
          match u.list_messages with
          | .error e => (.httpError 500 ("Chat error: " ++ e), 0)
          | .ok msgs =>
            match msgs.head? with
            | none => (.httpError 500 ("Chat error: " ++ indexErrorStr), 0)
            | some assistant_response =>
              match u.delete_thread with
              | .error e => (.httpError 500 ("Chat error: " ++ e), 1)
              | .ok _ => (.ok assistant_response debug2, 1)
        else
          (.httpError 500
            ("Chat error: " ++
              httpExceptionStr 500 ("Assistant run failed: " ++ run.status)),
           0)

/-- The process environment at module load: the two variables the module
reads (`Apikey`, `assistantId`) and the OPENAI_API_KEY fallback the
openai client library consults. -/
structure Env where
  Apikey : Option String
  assistantId : Option String
  OPENAI_API_KEY : Option String
deriving DecidableEq, Repr

/-- The api_key resolution of `openai.OpenAI(api_key=...)`: use the
argument if not None, else the OPENAI_API_KEY environment variable, else
raise OpenAIError. -/
def openaiClientInit (api_key : Option String) (env : Env) :
    Except String String :=
  match api_key with
  | some k => .ok k
  | none =>
      match env.OPENAI_API_KEY with
      | some k => .ok k
      | none => .error "The api_key client option must be set"

/-- The module-level bindings established at startup. -/
structure StartupState where
  ASSISTANT_API_KEY : Option String
  ASSISTANT_ID : Option String
  clientKey : String
deriving DecidableEq, Repr

/-- Module startup: `ASSISTANT_API_KEY = os.getenv("Apikey")` and
`ASSISTANT_ID = os.getenv("assistantId")` bind whatever the environment
holds (None when absent, with no validation), then
`client = openai.OpenAI(api_key=ASSISTANT_API_KEY)` is the only call
that can raise. -/
def moduleStartup (env : Env) : Except String StartupState :=
  let ASSISTANT_API_KEY := env.Apikey
  let ASSISTANT_ID := env.assistantId
  match openaiClientInit ASSISTANT_API_KEY env with
  | .error e => .error e
  | .ok k =>
      .ok { ASSISTANT_API_KEY := ASSISTANT_API_KEY
            ASSISTANT_ID := ASSISTANT_ID
            clientKey := k }

/-! Helper lemmas shared by the claim theorems. -/

theorem lookup_setEntry_self (r : Registry) (cid : String) (ws : WebSocket) :
    lookup (setEntry r cid ws) cid = some ws := by
  induction r with
  | nil => simp [setEntry, lookup]
  | cons p rest ih =>
      obtain ⟨c, w⟩ := p
      by_cases h : c = cid
      · simp [setEntry, h, lookup]
      · simp [setEntry, h, lookup, ih]

theorem lookup_eraseEntry_self (r : Registry) (cid : String) :
    lookup (eraseEntry r cid) cid = none := by
  induction r with
  | nil => rfl
  | cons p rest ih =>
      obtain ⟨c, w⟩ := p
      by_cases h : c = cid
      · simpa [eraseEntry, List.filter, h] using ih
      · simpa [eraseEntry, List.filter, h, lookup] using ih

theorem forwardAll_eq_map (r : Registry) (cid : String) (ws : WebSocket)
    (h : lookup r cid = some ws) (l : List String) :
    forwardAll r cid l = l.map (Action.sendText ws) := by
  induction l with
  | nil => rfl
  | cons s ss ih => simp [forwardAll, send_message, h, ih]

theorem processTurn_ok_eq (r : Registry) (cid : String) (ws : WebSocket)
    (h : lookup r cid = some ws) (events : List StreamEvent) :
    processTurn r cid (StreamResult.ok events)
      = (fragsOf events ++ [END_OF_MESSAGE]).map (Action.sendText ws) := by
  simp [processTurn, forwardAll_eq_map r cid ws h, send_message, h]

theorem processTurn_err_eq (r : Registry) (cid : String) (ws : WebSocket)
    (h : lookup r cid = some ws) (events : List StreamEvent) (msg : String) :
    processTurn r cid (StreamResult.err events msg)
      = (fragsOf events ++ ["Error: " ++ msg]).map (Action.sendText ws) := by
  simp [processTurn, forwardAll_eq_map r cid ws h, send_message, h]

theorem mem_fragsOf_ne_empty (events : List StreamEvent) (s : String)
    (hs : s ∈ fragsOf events) : s ≠ "" := by
  rw [fragsOf, List.mem_filterMap] at hs
  obtain ⟨e, _, he⟩ := hs
  unfold fragmentOf at he
  rcases e with ⟨_ | d⟩
  · simp at he
  · rcases d with ⟨_ | c⟩
    · simp at he
    · by_cases hc : c = "" <;> simp [hc] at he
      exact he ▸ hc

theorem chat_error_ne_empty (s : String) : ("Chat error: " ++ s) ≠ "" := by
  intro h
  have hl := congrArg String.length h
  rw [String.length_append] at hl
  have h12 : ("Chat error: " : String).length = 12 := rfl
  have h0 : ("" : String).length = 0 := rfl
  rw [h12, h0] at hl
  omega

theorem sentTexts_map_sendText (ws : WebSocket) (l : List String) :
    sentTexts (l.map (Action.sendText ws)) = l := by
  induction l with
  | nil => rfl
  | cons s ss ih => simp [sentTexts, List.filterMap_cons] at *; exact ih

/-! The claim theorems. -/

/-- C1: on an open WebSocket session, a turn whose upstream stream
terminates normally makes the handler send to the session's transport
exactly the turn's fragments, verbatim and in upstream production order,
followed by exactly one END_OF_MESSAGE message — no fragment duplicated,
dropped, or reordered. -/
theorem stream_turn_delivers_fragments_then_sentinel
    (r : Registry) (websocket : WebSocket) (client_id : String)
    (events : List StreamEvent) :
    processTurn (connect r websocket client_id).1 client_id
        (StreamResult.ok events)
      = (fragsOf events ++ [END_OF_MESSAGE]).map (Action.sendText websocket) :=
  processTurn_ok_eq _ _ _ (lookup_setEntry_self r client_id websocket) events

/-- C2: a turn whose upstream call raises is caught by the inner
handler: the client receives the fragments produced before the failure
followed by exactly one `Error: <message>` diagnostic with nothing — in
particular no END_OF_MESSAGE sentinel — after it; no transport close is
issued; the registry still maps the client to its socket; and the
receive loop processes the subsequent turns on the same socket. -/
theorem turn_error_sends_diagnostic_and_keeps_connection
    (r : Registry) (websocket : WebSocket) (client_id : String)
    (events : List StreamEvent) (msg : String) (rest : List StreamResult) :
    processTurn (connect r websocket client_id).1 client_id
        (StreamResult.err events msg)
      = (fragsOf events ++ ["Error: " ++ msg]).map (Action.sendText websocket)
    ∧ (∀ w, Action.close w ∉ processTurn (connect r websocket client_id).1
        client_id (StreamResult.err events msg))
    ∧ lookup (connect r websocket client_id).1 client_id = some websocket
    ∧ runTurns (connect r websocket client_id).1 client_id
        (StreamResult.err events msg :: rest)
      = processTurn (connect r websocket client_id).1 client_id
          (StreamResult.err events msg)
        ++ runTurns (connect r websocket client_id).1 client_id rest := by
  have h : lookup (connect r websocket client_id).1 client_id = some websocket :=
    lookup_setEntry_self r client_id websocket
  refine ⟨processTurn_err_eq _ _ _ h events msg, ?_, h, rfl⟩
  intro w hw
  rw [processTurn_err_eq _ _ _ h events msg] at hw
  simp [List.mem_map] at hw

/-- C3: evaluation at the failing input: with the upstream run ending in
terminal status "failed", chat_with_assistant performs zero
threads.delete calls — the created thread is not released on the
run-failure path, contradicting the claim that it is released exactly
once on every exit path. -/
theorem chat_run_failure_releases_thread_zero_times :
    (chat_with_assistant
        ⟨Except.ok "thread_1", Except.ok (), Except.ok ⟨"run_1", "failed"⟩,
          Except.ok ["resp"], Except.ok ()⟩
        (some "asst_1") "ping").2 = 0
    ∧ (chat_with_assistant
        ⟨Except.ok "thread_1", Except.ok (), Except.ok ⟨"run_1", "failed"⟩,
          Except.ok ["resp"], Except.ok ()⟩
        (some "asst_1") "ping").1
      = ChatOutcome.httpError 500
          ("Chat error: " ++
            httpExceptionStr 500 ("Assistant run failed: " ++ "failed")) :=
  ⟨rfl, rfl⟩

/-- C4: for every upstream behaviour and every message, POST /chat
either returns a response string with debug metadata or an HTTPException
with status 500 and a non-empty detail string; the handler's outcome is
total — no exception escapes it. -/
theorem chat_never_unhandled
    (u : Upstream) (ASSISTANT_ID : Option String) (message : String) :
    (∃ resp dbg, (chat_with_assistant u ASSISTANT_ID message).1
        = ChatOutcome.ok resp dbg)
    ∨ (∃ d, (chat_with_assistant u ASSISTANT_ID message).1
        = ChatOutcome.httpError 500 d ∧ d ≠ "") := by
  obtain ⟨ct, cm, cp, lm, dt⟩ := u
  rcases ct with e | tid
  · exact Or.inr ⟨_, rfl, chat_error_ne_empty e⟩
  rcases cm with e | u1
  · exact Or.inr ⟨_, rfl, chat_error_ne_empty e⟩
  rcases cp with e | run
  · exact Or.inr ⟨_, rfl, chat_error_ne_empty e⟩
  obtain ⟨rid, rstatus⟩ := run
  by_cases hs : rstatus = "completed"
  · subst hs
    rcases lm with e | msgs
    · exact Or.inr ⟨_, rfl, chat_error_ne_empty e⟩
    rcases msgs with _ | ⟨m, ms⟩
    · exact Or.inr ⟨_, rfl, chat_error_ne_empty indexErrorStr⟩
    rcases dt with e | u2
    · exact Or.inr ⟨_, rfl, chat_error_ne_empty e⟩
    · exact Or.inl ⟨m, _, rfl⟩
  · refine Or.inr
      ⟨"Chat error: " ++ httpExceptionStr 500 ("Assistant run failed: " ++ rstatus),
        ?_, chat_error_ne_empty _⟩
    simp [chat_with_assistant, hs]

/-- C5: when the upstream run reaches a terminal status other than
"completed", POST /chat yields an HTTPException with status 500 and the detail
string has that terminal status literal as a suffix (so the detail
contains the status literal). -/
theorem run_failure_detail_contains_status
    (u : Upstream) (ASSISTANT_ID : Option String) (message : String)
    (tid : String) (run : Run)
    (h1 : u.create_thread = Except.ok tid)
    (h2 : u.create_message = Except.ok ())
    (h3 : u.create_and_poll = Except.ok run)
    (h4 : run.status ≠ "completed") :
    (chat_with_assistant u ASSISTANT_ID message).1
      = ChatOutcome.httpError 500
          ("Chat error: " ++
            httpExceptionStr 500 ("Assistant run failed: " ++ run.status))
    ∧ ∃ p, ("Chat error: " ++
          httpExceptionStr 500 ("Assistant run failed: " ++ run.status))
        = p ++ run.status := by
  constructor
  · simp [chat_with_assistant, h1, h2, h3, h4]
  · refine ⟨"Chat error: " ++ (toString 500 ++ ": " ++ "Assistant run failed: "), ?_⟩
    simp only [httpExceptionStr, String.append_assoc]

/-- Witness for C5: a concrete upstream whose run terminates with status
"failed" yields the 500 outcome whose detail ends with "failed". -/
theorem run_failure_detail_contains_status_witness :
    (("failed" : String) ≠ "completed")
    ∧ ((chat_with_assistant
          ⟨Except.ok "thread_9", Except.ok (), Except.ok ⟨"run_9", "failed"⟩,
            Except.ok ["unused"], Except.ok ()⟩
          (some "asst_9") "ping").1
        = ChatOutcome.httpError 500
            ("Chat error: " ++
              httpExceptionStr 500 ("Assistant run failed: " ++ "failed"))
      ∧ ∃ p, ("Chat error: " ++
            httpExceptionStr 500 ("Assistant run failed: " ++ "failed"))
          = p ++ "failed") :=
  ⟨by decide,
   run_failure_detail_contains_status
     ⟨Except.ok "thread_9", Except.ok (), Except.ok ⟨"run_9", "failed"⟩,
       Except.ok ["unused"], Except.ok ()⟩
     (some "asst_9") "ping" "thread_9" ⟨"run_9", "failed"⟩
     rfl rfl rfl (by decide)⟩

/-- C6: a second registration under the same client_id overwrites the
registry entry — afterwards the registry maps the client_id to the new
socket — and neither registration issues a close on any transport, so
the prior socket is orphaned, not closed. -/
theorem register_overwrites_and_orphans
    (r : Registry) (ws1 ws2 : WebSocket) (client_id : String) :
    lookup (connect (connect r ws1 client_id).1 ws2 client_id).1 client_id
      = some ws2
    ∧ ∀ w, Action.close w ∉
        (connect r ws1 client_id).2
          ++ (connect (connect r ws1 client_id).1 ws2 client_id).2 := by
  refine ⟨lookup_setEntry_self _ _ _, ?_⟩
  intro w hw
  simp [connect] at hw

/-- C7: after the WebSocket handler finishes on a transport disconnect,
the client's entry is gone from the registry, and a subsequent
send_message to that client_id is a no-op that performs no transport
write and leaves the registry unchanged. -/
theorem disconnect_removes_entry_and_send_is_noop
    (r : Registry) (websocket : WebSocket) (client_id : String)
    (turns : List StreamResult) (text : String) :
    lookup (websocket_endpoint r websocket client_id turns).1 client_id = none
    ∧ send_message (websocket_endpoint r websocket client_id turns).1 text
        client_id
      = ((websocket_endpoint r websocket client_id turns).1, []) := by
  have hfin : (websocket_endpoint r websocket client_id turns).1
      = eraseEntry (setEntry r client_id websocket) client_id := by
    simp [websocket_endpoint, connect, disconnect, lookup_setEntry_self]
  have hnone : lookup (websocket_endpoint r websocket client_id turns).1
      client_id = none := by
    rw [hfin]
    exact lookup_eraseEntry_self _ _
  exact ⟨hnone, by simp [send_message, hnone]⟩

/-- C8: on a client_id absent from the registry, disconnect is an
idempotent no-op that leaves the registry unchanged, and send_message is
a silent no-op: it performs no transport write (no delivery is
attempted) and leaves the registry unchanged; neither raises. -/
theorem absent_key_operations_are_noops
    (r : Registry) (client_id text : String)
    (h : lookup r client_id = none) :
    disconnect r client_id = r
    ∧ send_message r text client_id = (r, []) := by
  constructor
  · simp [disconnect, h]
  · simp [send_message, h]

/-- Witness for C8: the empty registry does not contain "abc", and both
operations on it are no-ops. -/
theorem absent_key_operations_are_noops_witness :
    lookup ([] : Registry) "abc" = none
    ∧ (disconnect ([] : Registry) "abc" = ([] : Registry)
       ∧ send_message ([] : Registry) "hi" "abc" = (([] : Registry), [])) :=
  ⟨rfl, absent_key_operations_are_noops [] "abc" "hi" rfl⟩

/-- C9: evaluation at the failing input: with Apikey set but assistantId
absent from the environment, module startup succeeds — ASSISTANT_ID is
bound to None with no validation — so the process does not fail fast at
startup on a missing assistant identifier, contradicting the claim. -/
theorem startup_succeeds_without_assistant_id :
    moduleStartup ⟨some "k", none, none⟩
      = Except.ok ⟨some "k", none, "k"⟩ := rfl

/-- C10: an event whose delta is absent, whose content is absent, or
whose content is the empty string contributes no outbound send — the
turn's output is unchanged by deleting the event — and the client never
receives an empty fragment. -/
theorem empty_delta_event_not_forwarded
    (r : Registry) (websocket : WebSocket) (client_id : String)
    (pre post : List StreamEvent) (e : StreamEvent)
    (h : e.delta = none ∨ e.delta = some ⟨none⟩ ∨ e.delta = some ⟨some ""⟩) :
    processTurn (connect r websocket client_id).1 client_id
        (StreamResult.ok (pre ++ e :: post))
      = processTurn (connect r websocket client_id).1 client_id
          (StreamResult.ok (pre ++ post))
    ∧ "" ∉ sentTexts (processTurn (connect r websocket client_id).1 client_id
        (StreamResult.ok (pre ++ e :: post))) := by
  have hf : fragmentOf e = none := by
    rcases h with h | h | h <;> simp [fragmentOf, h]
  have hfr : fragsOf (pre ++ e :: post) = fragsOf (pre ++ post) := by
    simp [fragsOf, List.filterMap_append, List.filterMap_cons, hf]
  have hl : lookup (connect r websocket client_id).1 client_id = some websocket :=
    lookup_setEntry_self r client_id websocket
  constructor
  · rw [processTurn_ok_eq _ _ _ hl, processTurn_ok_eq _ _ _ hl, hfr]
  · rw [processTurn_ok_eq _ _ _ hl, sentTexts_map_sendText]
    intro hmem
    rcases List.mem_append.mp hmem with hmem | hmem
    · exact mem_fragsOf_ne_empty _ _ hmem rfl
    · simp [END_OF_MESSAGE] at hmem

/-- Witness for C10: a concrete event with no delta is dropped from a
one-event turn, whose only output is the sentinel. -/
theorem empty_delta_event_not_forwarded_witness :
    ((StreamEvent.mk none).delta = none
      ∨ (StreamEvent.mk none).delta = some ⟨none⟩
      ∨ (StreamEvent.mk none).delta = some ⟨some ""⟩)
    ∧ (processTurn (connect ([] : Registry) ⟨0⟩ "abc").1 "abc"
          (StreamResult.ok ([] ++ StreamEvent.mk none :: []))
        = processTurn (connect ([] : Registry) ⟨0⟩ "abc").1 "abc"
            (StreamResult.ok ([] ++ []))
      ∧ "" ∉ sentTexts (processTurn (connect ([] : Registry) ⟨0⟩ "abc").1 "abc"
          (StreamResult.ok ([] ++ StreamEvent.mk none :: [])))) :=
  ⟨Or.inl rfl,
   empty_delta_event_not_forwarded [] ⟨0⟩ "abc" [] [] (StreamEvent.mk none)
     (Or.inl rfl)⟩

end Isooko
